import Mathlib

/-!
Verification development for the Hawaii tourism dashboard backend.

The definitions below are a shallow embedding of the analytics service
(backend/services/analytics.py), the forecast service
(backend/services/ml_engine.py) and the relevant database tables
(backend/config/database.py).  Python floats are modelled as rationals,
SQL tables as lists of rows, and the session clock as a natural number of
seconds.  External collaborators (the hash library, the statistical
model, calendar arithmetic, the random source) are modelled as explicit
parameters or as fixed stand-in functions, noted at each definition.
-/

/-- Calendar dates. Ordering uses the numeric key below; the embedding
never needs day arithmetic (cut-off dates computed by the Python
datetime library are passed in as parameters). -/
structure Date where
  year : Nat
  month : Nat
  day : Nat
deriving DecidableEq

/-- Numeric key giving the calendar order of dates. -/
def Date.key (d : Date) : Nat := (d.year * 100 + d.month) * 100 + d.day

/-- Row of the visitor_arrivals table (VisitorArrivalDB). -/
structure ArrivalRow where
  date : Date
  island : String
  origin_state : Option String
  arrival_count : Int
  arrival_type : String
deriving DecidableEq

/-- Row of the hotel_occupancy table (HotelOccupancyDB). -/
structure OccupancyRow where
  date : Date
  island : String
  occupancy_rate : ℚ
  adr : ℚ
  revpar : Option ℚ
deriving DecidableEq

/-- Row of the economic_indicators table (EconomicIndicatorDB). -/
structure EconomicRow where
  date : Date
  unemployment_rate : ℚ
  visitor_spending_millions : ℚ
deriving DecidableEq

/-- The AnalyticsRequest pydantic model.  Islands are carried as their
string values, as produced by i.value in the source. -/
structure AnalyticsRequest where
  start_date : Date
  end_date : Date
  islands : List String
  metrics : List String
  group_by : String
deriving DecidableEq

/-- Python int() applied to a float: truncation toward zero. -/
def pytrunc (q : ℚ) : ℤ := if q < 0 then ⌈q⌉ else ⌊q⌋

/-- Python round-half-to-even on a rational, to an integer. -/
def roundHalfEven (q : ℚ) : ℤ :=
  let f : ℤ := ⌊q⌋
  let r : ℚ := q - (f : ℚ)
  if r < 1/2 then f
  else if (1 : ℚ)/2 < r then f + 1
  else if f % 2 = 0 then f else f + 1

/-- Python round(x, 1). -/
def pyRound1 (q : ℚ) : ℚ := ((roundHalfEven (q * 10) : ℚ)) / 10

/-- Python round(x, 2). -/
def pyRound2 (q : ℚ) : ℚ := ((roundHalfEven (q * 100) : ℚ)) / 100

/-- Keys of a SQL GROUP BY, in first-occurrence order (the engine output
order is unspecified; first-occurrence order is the deterministic model). -/
def dedupFold {α : Type} [DecidableEq α] (l : List α) : List α :=
  l.foldl (fun acc a => if a ∈ acc then acc else acc ++ [a]) []

/-- Mean of a list of rationals (SQL avg over a nonempty group). -/
def listAvg (l : List ℚ) : ℚ := l.sum / (l.length : ℚ)

/-- SQL max over a nonempty column; 0 for the empty list. -/
def listMax : List ℚ → ℚ
  | [] => 0
  | h :: t => t.foldl max h

/-- SQL min over a nonempty column; 0 for the empty list. -/
def listMin : List ℚ → ℚ
  | [] => 0
  | h :: t => t.foldl min h

/-- Date-range filter used by every analytics query. -/
def inDateRange (s e : Date) (d : Date) : Bool :=
  decide (s.key ≤ d.key ∧ d.key ≤ e.key)

/-- Optional island filter: an empty request list means no filter, as in
the source where the filter clause is added only when request.islands is
truthy. -/
def islandMatch (islands : List String) (i : String) : Bool :=
  islands.isEmpty || decide (i ∈ islands)

/-- Row predicate of the grouped arrivals query in analyze_arrivals:
date range and optional island filter. -/
def arrivalMatches (req : AnalyticsRequest) (r : ArrivalRow) : Bool :=
  inDateRange req.start_date req.end_date r.date && islandMatch req.islands r.island

/-- GROUP BY key in analyze_arrivals: (year, month, island) when
group_by is month, else (date, island). -/
def arrivalGroupKey (group_by : String) (r : ArrivalRow) : (Nat × Nat × Nat) × String :=
  if group_by = "month" then ((r.date.year, r.date.month, 0), r.island)
  else ((r.date.year, r.date.month, r.date.day), r.island)

/-- Group keys of the grouped arrivals query. -/
def arrivalGroups (req : AnalyticsRequest) (db : List ArrivalRow) :
    List ((Nat × Nat × Nat) × String) :=
  dedupFold ((db.filter (arrivalMatches req)).map (arrivalGroupKey req.group_by))

/-- Sum of arrival_count over one group (func.sum in the source). -/
def groupTotal (req : AnalyticsRequest) (db : List ArrivalRow)
    (k : (Nat × Nat × Nat) × String) : Int :=
  (((db.filter (arrivalMatches req)).filter
      (fun r => decide (arrivalGroupKey req.group_by r = k))).map (·.arrival_count)).sum

/-- Representative date of a group (the date column selected alongside a
month grouping is an arbitrary representative; we take the first row). -/
def groupRepDate (req : AnalyticsRequest) (db : List ArrivalRow)
    (k : (Nat × Nat × Nat) × String) : Date :=
  match (db.filter (arrivalMatches req)).find?
      (fun r => decide (arrivalGroupKey req.group_by r = k)) with
  | some r => r.date
  | none => ⟨0, 0, 0⟩

/-- One element of the arrivals time_series. -/
structure ArrivalsSeriesRow where
  date : Date
  island : String
  arrivals : Int
deriving DecidableEq

/-- One element of top_origins. -/
structure OriginRow where
  state : String
  arrivals : Int
deriving DecidableEq

/-- Row predicate of the origin query in analyze_arrivals: date range
and origin_state not null.  Faithful to the source, this query does NOT
apply the island filter. -/
def originRowMatches (req : AnalyticsRequest) (r : ArrivalRow) : Bool :=
  inDateRange req.start_date req.end_date r.date && r.origin_state.isSome

/-- Distinct origin states of the origin query, first-occurrence order. -/
def originKeys (req : AnalyticsRequest) (db : List ArrivalRow) : List String :=
  dedupFold ((db.filter (originRowMatches req)).filterMap (·.origin_state))

/-- Total arrivals from one origin state over the date-filtered rows. -/
def originTotal (req : AnalyticsRequest) (db : List ArrivalRow) (s : String) : Int :=
  (((db.filter (originRowMatches req)).filter
      (fun r => decide (r.origin_state = some s))).map (·.arrival_count)).sum

/-- Descending order on origin rows (ORDER BY total DESC). -/
def originRel (a b : OriginRow) : Prop := b.arrivals ≤ a.arrivals

instance : DecidableRel originRel :=
  fun a b => inferInstanceAs (Decidable (b.arrivals ≤ a.arrivals))

instance : IsTotal OriginRow originRel := ⟨fun a b => le_total b.arrivals a.arrivals⟩

instance : IsTrans OriginRow originRel :=
  ⟨fun _ _ _ h1 h2 => le_trans h2 h1⟩

/-- The top_origins list: origins grouped, summed, sorted by total
descending, first ten kept (ORDER BY ... DESC LIMIT 10). -/
def topOrigins (req : AnalyticsRequest) (db : List ArrivalRow) : List OriginRow :=
  (List.insertionSort originRel
    ((originKeys req db).map (fun s => ⟨s, originTotal req db s⟩))).take 10

/-- Result block of analyze_arrivals. -/
structure ArrivalsBlock where
  time_series : List ArrivalsSeriesRow
  total_arrivals : Int
  top_origins : List OriginRow
  average_daily_arrivals : ℚ
deriving DecidableEq

/-- AnalyticsEngine.analyze_arrivals. -/
def analyze_arrivals (req : AnalyticsRequest) (db : List ArrivalRow) : ArrivalsBlock :=
  let keys := arrivalGroups req db
  let series := keys.map (fun k =>
    ArrivalsSeriesRow.mk (groupRepDate req db k) k.2 (groupTotal req db k))
  { time_series := series
    total_arrivals := (series.map (·.arrivals)).sum
    top_origins := topOrigins req db
    average_daily_arrivals :=
      ((series.map (·.arrivals)).sum : ℚ) / ((max 1 keys.length : Nat) : ℚ) }

/-- Row predicate of the grouped occupancy query: date range and
optional island filter. -/
def occupancyMatches (req : AnalyticsRequest) (r : OccupancyRow) : Bool :=
  inDateRange req.start_date req.end_date r.date && islandMatch req.islands r.island

/-- One element of the occupancy time_series. -/
structure OccupancySeriesRow where
  date : Date
  island : String
  occupancy_rate : ℚ
  adr : ℚ
  revpar : Option ℚ
deriving DecidableEq

/-- Group keys of the occupancy query (always grouped by date, island). -/
def occGroups (req : AnalyticsRequest) (db : List OccupancyRow) : List (Date × String) :=
  dedupFold ((db.filter (occupancyMatches req)).map (fun r => (r.date, r.island)))

/-- Rows of one occupancy group. -/
def occGroupRows (req : AnalyticsRequest) (db : List OccupancyRow)
    (k : Date × String) : List OccupancyRow :=
  (db.filter (occupancyMatches req)).filter (fun r => decide ((r.date, r.island) = k))

/-- One occupancy time_series element: rounded group averages; the
revpar average is emitted only when truthy (None and 0 both render as
None, matching the Python conditional expression). -/
def occSeriesRow (req : AnalyticsRequest) (db : List OccupancyRow)
    (k : Date × String) : OccupancySeriesRow :=
  let rows := occGroupRows req db k
  let revs := rows.filterMap (·.revpar)
  let avgRev : Option ℚ := if revs.isEmpty then none else some (listAvg revs)
  { date := k.1
    island := k.2
    occupancy_rate := pyRound1 (listAvg (rows.map (·.occupancy_rate)))
    adr := pyRound2 (listAvg (rows.map (·.adr)))
    revpar := match avgRev with
      | none => none
      | some v => if v = 0 then none else some (pyRound2 v) }

/-- Rows feeding the overall occupancy statistics query.  Faithful to
the source, this query filters by date range only: the island filter is
NOT applied to it. -/
def occDateRows (req : AnalyticsRequest) (db : List OccupancyRow) : List OccupancyRow :=
  db.filter (fun r => inDateRange req.start_date req.end_date r.date)

/-- Result block of analyze_occupancy. -/
structure OccupancyBlock where
  time_series : List OccupancySeriesRow
  average_occupancy : ℚ
  average_adr : ℚ
  peak_occupancy : ℚ
  low_occupancy : ℚ
deriving DecidableEq

/-- Python pattern round(v, 1) if v else 0: None (empty column) and 0
both give 0. -/
def roundedOrZero1 (rows : List OccupancyRow) (v : ℚ) : ℚ :=
  if rows.isEmpty then 0 else if v = 0 then 0 else pyRound1 v

/-- Python pattern round(v, 2) if v else 0. -/
def roundedOrZero2 (rows : List OccupancyRow) (v : ℚ) : ℚ :=
  if rows.isEmpty then 0 else if v = 0 then 0 else pyRound2 v

/-- AnalyticsEngine.analyze_occupancy. -/
def analyze_occupancy (req : AnalyticsRequest) (db : List OccupancyRow) : OccupancyBlock :=
  let keys := occGroups req db
  let overall := occDateRows req db
  { time_series := keys.map (occSeriesRow req db)
    average_occupancy := roundedOrZero1 overall (listAvg (overall.map (·.occupancy_rate)))
    average_adr := roundedOrZero2 overall (listAvg (overall.map (·.adr)))
    peak_occupancy := roundedOrZero1 overall (listMax (overall.map (·.occupancy_rate)))
    low_occupancy := roundedOrZero1 overall (listMin (overall.map (·.occupancy_rate))) }

/-- One element of the spending time_series. -/
structure SpendingSeriesRow where
  date : Date
  spending_millions : ℚ
deriving DecidableEq

/-- Result of analyze_spending: either the explicit no-data marker or a
populated block. -/
inductive SpendingBlock where
  | noData
  | data (time_series : List SpendingSeriesRow) (total_spending_millions : ℚ)
      (average_monthly_spending_millions : ℚ) (spending_trend : String)
deriving DecidableEq

/-- Ascending date order used by the spending query (ORDER BY date). -/
def econDateRel (a b : EconomicRow) : Prop := a.date.key ≤ b.date.key

instance : DecidableRel econDateRel :=
  fun a b => inferInstanceAs (Decidable (a.date.key ≤ b.date.key))

instance : IsTotal EconomicRow econDateRel := ⟨fun a b => le_total a.date.key b.date.key⟩

instance : IsTrans EconomicRow econDateRel := ⟨fun _ _ _ h1 h2 => le_trans h1 h2⟩

/-- AnalyticsEngine.analyze_spending. -/
def analyze_spending (req : AnalyticsRequest) (db : List EconomicRow) : SpendingBlock :=
  let rows := List.insertionSort econDateRel
    (db.filter (fun r => inDateRange req.start_date req.end_date r.date))
  match rows with
  | [] => SpendingBlock.noData
  | h :: t =>
    let all := h :: t
    let total := (all.map (·.visitor_spending_millions)).sum
    SpendingBlock.data
      (all.map (fun r => SpendingSeriesRow.mk r.date r.visitor_spending_millions))
      (pyRound1 total)
      (pyRound1 (total / ((max 1 all.length : Nat) : ℚ)))
      (if 1 < all.length ∧
          h.visitor_spending_millions <
            (all.getLastD h).visitor_spending_millions
        then "increasing" else "stable")

/-- Decimal rendering of an integer.  Python inserts thousands
separators in some insight strings; the separator placement is a
presentation detail abstracted away here. -/
def intStr (n : Int) : String := toString n

/-- Rendering of a rational in an insight string (Python prints the
float; the exact decimal rendering is a presentation detail). -/
def ratStr (q : ℚ) : String := toString q

/-- AnalyticsEngine.generate_insights, rule for the top origin. -/
def insightOrigin (arrB : Option ArrivalsBlock) : List String :=
  match arrB with
  | some a =>
    match a.top_origins with
    | top :: _ =>
      ["Visitors from " ++ top.state ++ " represent your largest market with "
        ++ intStr top.arrivals ++ " arrivals"]
    | [] => []
  | none => []

/-- Insight rule for occupancy thresholds. -/
def insightOccupancy (occB : Option OccupancyBlock) : List String :=
  match occB with
  | some o =>
    if 80 < o.average_occupancy then
      ["High occupancy rate of " ++ ratStr o.average_occupancy
        ++ "% indicates strong demand - consider premium pricing strategies"]
    else if o.average_occupancy < 60 then
      ["Occupancy at " ++ ratStr o.average_occupancy
        ++ "% suggests opportunity for targeted marketing campaigns"]
    else []
  | none => []

/-- Insight rule for spend per visitor (the source reads the totals with
dict.get, so a no-data spending block contributes 0). -/
def insightSpend (arrB : Option ArrivalsBlock) (spB : Option SpendingBlock) : List String :=
  match spB, arrB with
  | some sp, some a =>
    let totalSp : ℚ := match sp with
      | SpendingBlock.noData => 0
      | SpendingBlock.data _ t _ _ => t
    let totalArr : Int := a.total_arrivals
    let spv : ℚ := if 0 < totalArr then totalSp * 1000000 / (totalArr : ℚ) else 0
    if 0 < spv then
      ["Average visitor spending is $" ++ intStr (roundHalfEven spv)
        ++ " - focus on high-value visitor segments"]
    else []
  | _, _ => []

/-- Insight rule for average daily arrivals. -/
def insightDaily (arrB : Option ArrivalsBlock) : List String :=
  match arrB with
  | some a =>
    ["Average " ++ intStr (pytrunc a.average_daily_arrivals)
      ++ " daily arrivals provides baseline for capacity planning"]
  | none => []

/-- AnalyticsEngine.generate_insights: the four rules in source order. -/
def generate_insights (arrB : Option ArrivalsBlock) (occB : Option OccupancyBlock)
    (spB : Option SpendingBlock) : List String :=
  insightOrigin arrB ++ insightOccupancy occB ++ insightSpend arrB spB ++ insightDaily arrB

/-- The query result dictionary built by process_query.  A dictionary
with these keys is always non-empty, so Python truthiness of a stored
payload coincides with its presence. -/
structure ResultPayload where
  request : AnalyticsRequest
  generated_at : Nat
  arrivals : Option ArrivalsBlock
  occupancy : Option OccupancyBlock
  spending : Option SpendingBlock
  insights : List String
deriving DecidableEq

/-- Row of the analytics_cache table (AnalyticsCacheDB).  The query_hash
column carries a UNIQUE constraint in the schema. -/
structure CacheRow where
  query_hash : String
  results : ResultPayload
  expires_at : Nat
deriving DecidableEq

/-- The database visible to the analytics engine. -/
structure AnalyticsDB where
  arrivals : List ArrivalRow
  occupancy : List OccupancyRow
  economic : List EconomicRow
  cache : List CacheRow
deriving DecidableEq

/-- The computation performed by process_query on a cache miss: one
aggregate block per requested metric, then the insights. -/
def computeResults (req : AnalyticsRequest) (db : AnalyticsDB) (now : Nat) : ResultPayload :=
  let arrB := if "arrivals" ∈ req.metrics then some (analyze_arrivals req db.arrivals) else none
  let occB := if "occupancy" ∈ req.metrics then some (analyze_occupancy req db.occupancy) else none
  let spB := if "spending" ∈ req.metrics then some (analyze_spending req db.economic) else none
  { request := req
    generated_at := now
    arrivals := arrB
    occupancy := occB
    spending := spB
    insights := generate_insights arrB occB spB }

/-- JSON rendering of a string value (quoting only; the request fields
contain no characters needing escapes). -/
def jsonStr (s : String) : String := "\"" ++ s ++ "\""

/-- Rendering of a date by str(), as json.dumps default=str does. -/
def dateStr (d : Date) : String :=
  toString d.year ++ "-" ++ toString d.month ++ "-" ++ toString d.day

/-- JSON rendering of a list of strings. -/
def listJson (l : List String) : String :=
  "[" ++ String.intercalate ", " (l.map jsonStr) ++ "]"

/-- The key-value pairs of request.dict(), in pydantic field order. -/
def reqFields (r : AnalyticsRequest) : List (String × String) :=
  [("start_date", jsonStr (dateStr r.start_date)),
   ("end_date", jsonStr (dateStr r.end_date)),
   ("islands", listJson r.islands),
   ("metrics", listJson r.metrics),
   ("group_by", jsonStr r.group_by)]

/-- Lexicographic comparison of character lists by code point, the key
order used by json.dumps with sort_keys=True. -/
def lexLe : List Char → List Char → Bool
  | [], _ => true
  | _ :: _, [] => false
  | a :: as, b :: bs =>
    if a.toNat < b.toNat then true
    else if b.toNat < a.toNat then false
    else lexLe as bs

/-- Key comparison on strings. -/
def strLe (a b : String) : Bool := lexLe a.toList b.toList

/-- Insertion into a key-sorted list of dictionary entries. -/
def insertField (p : String × String) :
    List (String × String) → List (String × String)
  | [] => [p]
  | q :: t => if strLe p.1 q.1 then p :: q :: t else q :: insertField p t

/-- Sorting of dictionary entries by key (sort_keys=True). -/
def sortFields : List (String × String) → List (String × String)
  | [] => []
  | p :: t => insertField p (sortFields t)

/-- json.dumps of a flat string dictionary with sort_keys=True. -/
def jsonDumpsSorted (l : List (String × String)) : String :=
  "\x7b" ++ String.intercalate ", "
    ((sortFields l).map (fun p => jsonStr p.1 ++ ": " ++ p.2))
    ++ "\x7d"

/-- Stand-in for the external hashlib.md5 hexdigest primitive: a fixed
function of the input string.  The cache-key claims depend only on it
being a function of the serialized text, not on the md5 algorithm. -/
def md5model (s : String) : Nat :=
  s.toList.foldl (fun h c => (h * 131 + c.toNat) % (2 ^ 128)) 7

/-- AnalyticsEngine.generate_cache_key: hash of the sorted-key JSON
serialization of request.dict(). -/
def generate_cache_key (r : AnalyticsRequest) : String :=
  toString (md5model (jsonDumpsSorted (reqFields r)))

/-- Predicate of the cache lookup: matching hash and expiry strictly in
the future. -/
def cacheValid (key : String) (now : Nat) (r : CacheRow) : Bool :=
  r.query_hash == key && decide (now < r.expires_at)

/-- AnalyticsEngine.get_cached_result: first matching non-expired row,
if any. -/
def get_cached_result (db : AnalyticsDB) (key : String) (now : Nat) : Option ResultPayload :=
  ((db.cache.filter (cacheValid key now)).head?).map (·.results)

/-- AnalyticsEngine.cache_result.  The insert succeeds only when the
external store accepts the write (writeOk) and no existing row carries
the same hash (the UNIQUE constraint on query_hash); any failure is
caught, logged and rolled back, leaving the table unchanged. -/
def cache_result (db : AnalyticsDB) (key : String) (results : ResultPayload)
    (now : Nat) (writeOk : Bool) : AnalyticsDB :=
  if writeOk && db.cache.all (fun r => !(r.query_hash == key)) then
    { db with cache := db.cache ++ [CacheRow.mk key results (now + 3600)] }
  else db

/-- AnalyticsEngine.process_query: cache lookup, else compute, attempt
to cache, and return the fresh result. -/
def process_query (req : AnalyticsRequest) (db : AnalyticsDB) (now : Nat)
    (writeOk : Bool) : ResultPayload × AnalyticsDB :=
  match get_cached_result db (generate_cache_key req) now with
  | some r => (r, db)
  | none =>
    (computeResults req db now,
      cache_result db (generate_cache_key req) (computeResults req db now) now writeOk)

/-- One day of a forecast.  Dates are represented by the day offset
from today; rendering to calendar dates is presentation. -/
structure ForecastDay where
  dayIndex : Nat
  predicted_arrivals : Int
  confidence_lower : Int
  confidence_upper : Int
  island : String
deriving DecidableEq

/-- Row of the tourism_forecasts table (TourismForecastDB). -/
structure ForecastRec where
  forecast_day : Nat
  target_day : Nat
  island : String
  predicted_arrivals : Int
  confidence_lower : Int
  confidence_upper : Int
  model_name : String
deriving DecidableEq

/-- ForecastRecord written for one forecast day on the model path. -/
def toForecastRec (island : String) (d : ForecastDay) : ForecastRec :=
  { forecast_day := 0
    target_day := d.dayIndex
    island := island
    predicted_arrivals := d.predicted_arrivals
    confidence_lower := d.confidence_lower
    confidence_upper := d.confidence_upper
    model_name := "prophet" }

/-- pandas iloc indexing with a possibly negative integer index:
negative indices address from the end; out of range raises (none). -/
def ilocQ (l : List (ℚ × ℚ × ℚ)) (idx : Int) : Option (ℚ × ℚ × ℚ) :=
  if 0 ≤ idx then l[idx.toNat]?
  else if (0 : Int) ≤ (l.length : Int) + idx then l[((l.length : Int) + idx).toNat]?
  else none

/-- Clamping of one model output row: int() then max with 0, applied to
yhat, yhat_lower, yhat_upper. -/
def clampDay (island : String) (i : Nat) (t : ℚ × ℚ × ℚ) : ForecastDay :=
  { dayIndex := i
    predicted_arrivals := max 0 (pytrunc t.1)
    confidence_lower := max 0 (pytrunc t.2.1)
    confidence_upper := max 0 (pytrunc t.2.2)
    island := island }

/-- Day i of the model path: index len(forecast) - days_ahead + i into
the model output, clamped; the fixed 5000/4500/5500 triple when that
index is not below the output length. -/
def modelPathDay (out : List (ℚ × ℚ × ℚ)) (days : Nat) (island : String)
    (i : Nat) : Option ForecastDay :=
  if (out.length : Int) - (days : Int) + (i : Int) < (out.length : Int) then
    (ilocQ out ((out.length : Int) - (days : Int) + (i : Int))).map (clampDay island i)
  else some (ForecastDay.mk i 5000 4500 5500 island)

/-- Sequencing of per-day Option results; any failed day aborts the
whole model path (the Python exception propagates to the outer try). -/
def optTraverse (f : Nat → Option ForecastDay) : List Nat → Option (List ForecastDay)
  | [] => some []
  | a :: t =>
    match f a, optTraverse f t with
    | some b, some r => some (b :: r)
    | _, _ => none

/-- Rows of the trailing-window query of generate_baseline_forecast:
arrivals for the island since the cut-off date (today minus 30 days,
computed by the datetime library and passed in by key). -/
def recentRows (db : AnalyticsDB) (island : String) (cutoffKey : Nat) : List ArrivalRow :=
  db.arrivals.filter (fun r => r.island == island && decide (cutoffKey ≤ r.date.key))

/-- Sum of the trailing-window arrival counts. -/
def recentSum (db : AnalyticsDB) (island : String) (cutoffKey : Nat) : Int :=
  ((recentRows db island cutoffKey).map (·.arrival_count)).sum

/-- The column average of the trailing-window query. -/
def recentMean (db : AnalyticsDB) (island : String) (cutoffKey : Nat) : ℚ :=
  (recentSum db island cutoffKey : ℚ) / ((recentRows db island cutoffKey).length : ℚ)

/-- Trailing average of arrival counts.  The Python expression
scalar() or 5000 replaces both an empty average (None) and a zero
average by 5000. -/
def recentAvg (db : AnalyticsDB) (island : String) (cutoffKey : Nat) : ℚ :=
  if (recentRows db island cutoffKey).isEmpty then 5000
  else if recentMean db island cutoffKey = 0 then 5000
  else recentMean db island cutoffKey

/-- Seasonal multiplier of the baseline heuristic. -/
def seasonal_factor (month : Nat) : ℚ :=
  if month = 12 ∨ month = 1 ∨ month = 2 then 1.2
  else if month = 6 ∨ month = 7 ∨ month = 8 then 1.1
  else 1.0

/-- Weekend multiplier of the baseline heuristic (weekday() is 5 or 6 on
Saturday and Sunday). -/
def weekend_factor (weekday : Nat) : ℚ := if 5 ≤ weekday then 1.1 else 1.0

/-- The per-day prediction of the baseline heuristic: trailing average
times seasonal, weekend and jitter factors, truncated to int.  The
jitter argument stands for np.random.random(), a draw in [0, 1). -/
def baseline_day_prediction (avg : ℚ) (month weekday : Nat) (jitter : ℚ) : Int :=
  pytrunc (avg * seasonal_factor month * weekend_factor weekday * (0.95 + 0.1 * jitter))

/-- One day of the baseline forecast.  The calendar oracle cal gives
(month, weekday) of today plus i days; rand gives the jitter draws. -/
def baselineDay (avg : ℚ) (cal : Nat → Nat × Nat) (rand : Nat → ℚ)
    (island : String) (i : Nat) : ForecastDay :=
  let p := baseline_day_prediction avg (cal i).1 (cal i).2 (rand i)
  { dayIndex := i
    predicted_arrivals := p
    confidence_lower := pytrunc ((p : ℚ) * 0.85)
    confidence_upper := pytrunc ((p : ℚ) * 1.15)
    island := island }

/-- MLEngine.generate_baseline_forecast.  It builds its list and never
writes a ForecastRecord row. -/
def generate_baseline_forecast (db : AnalyticsDB) (island : String)
    (cal : Nat → Nat × Nat) (rand : Nat → ℚ) (cutoffKey : Nat)
    (days : Nat) : List ForecastDay :=
  (List.range days).map (baselineDay (recentAvg db island cutoffKey) cal rand island)

/-- MLEngine.generate_forecast.  The statistical model is an external
collaborator: modelOut is none when no model is or can be made
available, else the predicted (yhat, yhat_lower, yhat_upper) rows of
the full fitted frame.  The pair returned is (forecast_data, the
ForecastRecord rows added to the session); on the model path one row is
added per day, on the baseline path none are.  A failed model-path day
falls back to the baseline, as the outer try does in the source. -/
def generate_forecast (modelOut : Option (List (ℚ × ℚ × ℚ))) (db : AnalyticsDB)
    (island : String) (cal : Nat → Nat × Nat) (rand : Nat → ℚ)
    (cutoffKey : Nat) (days : Nat) : List ForecastDay × List ForecastRec :=
  match modelOut with
  | none => (generate_baseline_forecast db island cal rand cutoffKey days, [])
  | some out =>
    match optTraverse (modelPathDay out days island) (List.range days) with
    | some l => (l, l.map (toForecastRec island))
    | none => (generate_baseline_forecast db island cal rand cutoffKey days, [])

/-- Visitor-capture ratio and average spend per business category. -/
def impact_factor (business_type : String) : ℚ × ℚ :=
  if business_type = "hotel" then (0.4, 250)
  else if business_type = "restaurant" then (0.7, 50)
  else if business_type = "tour_operator" then (0.3, 150)
  else if business_type = "retail" then (0.5, 80)
  else if business_type = "transportation" then (0.6, 40)
  else (0.5, 100)

/-- Descending order on forecast days by predicted arrivals. -/
def forecastDescRel (a b : ForecastDay) : Prop :=
  b.predicted_arrivals ≤ a.predicted_arrivals

instance : DecidableRel forecastDescRel :=
  fun a b => inferInstanceAs (Decidable (b.predicted_arrivals ≤ a.predicted_arrivals))

instance : IsTotal ForecastDay forecastDescRel :=
  ⟨fun a b => le_total b.predicted_arrivals a.predicted_arrivals⟩

instance : IsTrans ForecastDay forecastDescRel :=
  ⟨fun _ _ _ h1 h2 => le_trans h2 h1⟩

/-- MLEngine.generate_recommendations.  Peak dates are rendered by day
offset (calendar rendering is presentation); the average arrivals
denominator is the forecast length. -/
def generate_recommendations (business_type : String)
    (forecast : List ForecastDay) : List String :=
  let peak_days := (List.insertionSort forecastDescRel forecast).take 5
  let headRec := ["Peak visitor days expected: "
    ++ String.intercalate ", " (peak_days.map (fun d => toString d.dayIndex))]
  let specific : List String :=
    if business_type = "hotel" then
      ["Consider dynamic pricing for peak periods",
       "Ensure adequate staffing for high-occupancy dates"]
    else if business_type = "restaurant" then
      ["Stock up on inventory for peak days",
       "Consider extended hours during high-traffic periods"]
    else if business_type = "tour_operator" then
      ["Add extra tour slots for peak days",
       "Hire seasonal guides if needed"]
    else []
  let avg : ℚ := ((forecast.map (·.predicted_arrivals)).sum : ℚ) / (forecast.length : ℚ)
  headRec ++ specific ++
    (if 10000 < avg then ["High visitor volume expected - prepare marketing campaigns"] else [])

/-- Result of calculate_business_impact: the error dictionary when the
forecast is empty, else the impact figures and recommendations. -/
inductive BusinessImpact where
  | err
  | ok (predicted_visitors : Int) (estimated_customers : Int)
      (estimated_revenue : ℚ) (recommendations : List String)
deriving DecidableEq

/-- MLEngine.calculate_business_impact: a 30-day forecast, summed and
scaled by the category factors. -/
def calculate_business_impact (modelOut : Option (List (ℚ × ℚ × ℚ)))
    (db : AnalyticsDB) (island : String) (cal : Nat → Nat × Nat)
    (rand : Nat → ℚ) (cutoffKey : Nat) (business_type : String) : BusinessImpact :=
  let forecast := (generate_forecast modelOut db island cal rand cutoffKey 30).fst
  if forecast.isEmpty then BusinessImpact.err
  else
    let total : Int := (forecast.map (·.predicted_arrivals)).sum
    let f := impact_factor business_type
    let customers := pytrunc ((total : ℚ) * f.1)
    BusinessImpact.ok total customers ((customers : ℚ) * f.2)
      (generate_recommendations business_type forecast)

/-! Concrete sample data used by the witness and counterexample
theorems below. -/

/-- A sample analytics request (no metrics, so its payload is small). -/
def sampleReq : AnalyticsRequest :=
  { start_date := ⟨2024, 1, 1⟩, end_date := ⟨2024, 1, 31⟩
    islands := [], metrics := [], group_by := "day" }

/-- The payload the engine computes for sampleReq on an empty store. -/
def samplePayload : ResultPayload := computeResults sampleReq ⟨[], [], [], []⟩ 0

/-- A store whose only cache row for sampleReq expired at time 50. -/
def sampleDbExpired : AnalyticsDB :=
  { arrivals := [], occupancy := [], economic := []
    cache := [⟨generate_cache_key sampleReq, samplePayload, 50⟩] }

/-- A store holding a still-valid cache row for sampleReq. -/
def sampleDbValid : AnalyticsDB :=
  { arrivals := [], occupancy := [], economic := []
    cache := [⟨generate_cache_key sampleReq, samplePayload, 5000⟩] }

/-- A request restricted to the island Oahu. -/
def sampleReqOahu : AnalyticsRequest :=
  { start_date := ⟨2024, 1, 1⟩, end_date := ⟨2024, 1, 31⟩
    islands := ["Oahu"], metrics := ["arrivals", "occupancy"], group_by := "day" }

/-- An arrival record for Maui, inside the date range of sampleReqOahu,
with a known origin. -/
def sampleArrivalMaui : ArrivalRow :=
  { date := ⟨2024, 1, 10⟩, island := "Maui", origin_state := some "California"
    arrival_count := 7, arrival_type := "air" }

/-- An occupancy record for Maui inside the date range of sampleReqOahu. -/
def sampleOccMaui : OccupancyRow :=
  { date := ⟨2024, 1, 10⟩, island := "Maui", occupancy_rate := 90
    adr := 200, revpar := none }

/-- A constant calendar oracle: every day is in March, on a Wednesday. -/
def sampleCal : Nat → Nat × Nat := fun _ => (3, 2)

/-- A constant jitter stream. -/
def sampleRand : Nat → ℚ := fun _ => 1/2

/-- An empty store. -/
def emptyDb : AnalyticsDB := ⟨[], [], [], []⟩

/-- A one-row model output with coherent confidence bounds. -/
def sampleModelOut : List (ℚ × ℚ × ℚ) := [(10.5, 9.5, 12.5)]

/-! Helper lemmas about the cache operations. -/

/-- Head of a filtered list when every element passing the predicate is
a fixed member. -/
theorem filter_head_of_unique {α : Type} (p : α → Bool) (a : α) :
    ∀ l : List α, (∀ x ∈ l, p x = true → x = a) → a ∈ l → p a = true →
      (l.filter p).head? = some a := by
  intro l
  induction l with
  | nil => intro _ hm _; exact absurd hm (List.not_mem_nil a)
  | cons h t ih =>
    intro hall hm hp
    by_cases hph : p h = true
    · have hha : h = a := hall h (List.mem_cons_self h t) hph
      subst hha
      simp [List.filter_cons, hph]
    · have hha : h ≠ a := fun he => hph (he ▸ hp)
      have hm' : a ∈ t := by
        rcases List.mem_cons.mp hm with h1 | h1
        · exact absurd h1.symm hha
        · exact h1
      have hr := ih (fun x hx hpx => hall x (List.mem_cons_of_mem _ hx) hpx) hm' hp
      simp [List.filter_cons, hph, hr]

/-- Cache lookup hits the unique matching, non-expired row. -/
theorem get_cached_result_eq_some (db : AnalyticsDB) (key : String) (now : Nat)
    (row : CacheRow)
    (hnd : (db.cache.map (fun r => r.query_hash)).Nodup)
    (hmem : row ∈ db.cache) (hkey : row.query_hash = key)
    (hval : now < row.expires_at) :
    get_cached_result db key now = some row.results := by
  have hone : ∀ x ∈ db.cache, cacheValid key now x = true → x = row := by
    intro x hx hvx
    simp only [cacheValid, Bool.and_eq_true, beq_iff_eq, decide_eq_true_eq] at hvx
    exact List.inj_on_of_nodup_map hnd hx hmem (by rw [hvx.1, hkey])
  have hpa : cacheValid key now row = true := by
    simp [cacheValid, hkey, hval]
  unfold get_cached_result
  rw [filter_head_of_unique _ row db.cache hone hmem hpa]
  rfl

/-- Cache lookup misses when the unique row with the key is expired. -/
theorem get_cached_result_eq_none (db : AnalyticsDB) (key : String) (now : Nat)
    (row : CacheRow)
    (hnd : (db.cache.map (fun r => r.query_hash)).Nodup)
    (hmem : row ∈ db.cache) (hkey : row.query_hash = key)
    (hexp : row.expires_at ≤ now) :
    get_cached_result db key now = none := by
  have hnilf : db.cache.filter (cacheValid key now) = [] := by
    rw [List.filter_eq_nil_iff]
    intro x hx hvx
    simp only [cacheValid, Bool.and_eq_true, beq_iff_eq, decide_eq_true_eq] at hvx
    have hxrow : x = row :=
      List.inj_on_of_nodup_map hnd hx hmem (by rw [hvx.1, hkey])
    rw [hxrow] at hvx
    exact absurd hvx.2 (not_lt.mpr hexp)
  unfold get_cached_result
  rw [hnilf]
  rfl

/-- The insert of cache_result fails (and the table is unchanged) as
soon as some row already carries the key: the UNIQUE constraint. -/
theorem cache_result_eq_of_dup (db : AnalyticsDB) (key : String)
    (results : ResultPayload) (now : Nat) (writeOk : Bool) (row : CacheRow)
    (hmem : row ∈ db.cache) (hkey : row.query_hash = key) :
    cache_result db key results now writeOk = db := by
  unfold cache_result
  cases hb : db.cache.all (fun r => !(r.query_hash == key)) with
  | false => simp [hb]
  | true =>
    have := List.all_eq_true.mp hb row hmem
    simp [hkey] at this

/-! Claims C2, C1 and C9: the caching behaviour of process_query. -/

/-- C2: for every analytics request whose fingerprint has a cache row
whose expiry lies strictly in the future, process_query returns the
stored payload of that row unchanged and performs no aggregation,
insight derivation or cache write: it returns exactly the stored
payload, and the store is left untouched.  In particular the same query
issued twice within the TTL returns the identical stored payload with
no second aggregation pass.  The nodup hypothesis is the UNIQUE
constraint on query_hash. -/
theorem c2_cache_hit_returns_stored_payload
    (req : AnalyticsRequest) (db : AnalyticsDB) (now : Nat) (writeOk : Bool)
    (row : CacheRow)
    (hnd : (db.cache.map (fun r => r.query_hash)).Nodup)
    (hmem : row ∈ db.cache)
    (hkey : row.query_hash = generate_cache_key req)
    (hval : now < row.expires_at) :
    process_query req db now writeOk = (row.results, db) := by
  unfold process_query
  rw [get_cached_result_eq_some db (generate_cache_key req) now row hnd hmem hkey hval]

set_option maxRecDepth 1000000 in
/-- Witness for C2 at concrete data: a store holding a valid cache row
for sampleReq; the query returns the stored payload and leaves the
store unchanged. -/
theorem c2_cache_hit_returns_stored_payload_witness :
    (50 : Nat) < 5000 ∧
      process_query sampleReq sampleDbValid 50 true = (samplePayload, sampleDbValid) :=
  ⟨by decide,
    c2_cache_hit_returns_stored_payload sampleReq sampleDbValid 50 true
      ⟨generate_cache_key sampleReq, samplePayload, 5000⟩
      (by decide) (by decide) rfl (by decide)⟩

set_option maxRecDepth 1000000 in
/-- C1 counterexample: the claim says that a query re-issued after the
TTL expiry creates a new cache row next to the old one (both rows
coexist).  On the code this is false: the UNIQUE constraint on
query_hash makes the insert fail, the failure is swallowed, and the
cache table is left exactly as it was, still holding only the one
expired row. -/
theorem c1_counterexample :
    (process_query sampleReq sampleDbExpired 100 true).snd.cache
        = sampleDbExpired.cache
      ∧ (process_query sampleReq sampleDbExpired 100 true).snd.cache.length = 1 := by
  constructor
  · decide
  · decide

/-- C1 (amended): a query issued after TTL expiry recomputes the
result; the attempted insert of a new cache row fails on the UNIQUE
query_hash constraint and is swallowed, so the old expired row is
neither overwritten nor deleted and remains the only row for that
fingerprint — no new row is created. -/
theorem c1_expired_row_recompute_no_new_row
    (req : AnalyticsRequest) (db : AnalyticsDB) (now : Nat) (writeOk : Bool)
    (row : CacheRow)
    (hnd : (db.cache.map (fun r => r.query_hash)).Nodup)
    (hmem : row ∈ db.cache)
    (hkey : row.query_hash = generate_cache_key req)
    (hexp : row.expires_at ≤ now) :
    process_query req db now writeOk = (computeResults req db now, db) := by
  unfold process_query
  rw [get_cached_result_eq_none db (generate_cache_key req) now row hnd hmem hkey hexp]
  rw [cache_result_eq_of_dup db (generate_cache_key req) (computeResults req db now)
    now writeOk row hmem hkey]

set_option maxRecDepth 1000000 in
/-- Witness for the amended C1 at concrete data: with the expired row
in place, the query recomputes and the store is unchanged. -/
theorem c1_expired_row_recompute_no_new_row_witness :
    (50 : Nat) ≤ 100 ∧
      process_query sampleReq sampleDbExpired 100 true
        = (computeResults sampleReq sampleDbExpired 100, sampleDbExpired) :=
  ⟨by decide,
    c1_expired_row_recompute_no_new_row sampleReq sampleDbExpired 100 true
      ⟨generate_cache_key sampleReq, samplePayload, 50⟩
      (by decide) (by decide) rfl (by decide)⟩

/-- C9: a cache-write failure is swallowed, never propagated, and
process_query still returns exactly the result it would have returned
had the write succeeded; only the stored table differs (it stays
unchanged).  Stated for every request, store and time: the run with the
failing write returns the same payload as the run with the succeeding
write, together with the untouched store. -/
theorem c9_cache_write_failure_swallowed
    (req : AnalyticsRequest) (db : AnalyticsDB) (now : Nat) :
    process_query req db now false
      = ((process_query req db now true).fst, db) := by
  unfold process_query
  cases h : get_cached_result db (generate_cache_key req) now with
  | some r => rfl
  | none =>
    simp only []
    unfold cache_result
    simp

/-! Claims C6 and C7: the arrivals and occupancy aggregates. -/

set_option maxRecDepth 1000000 in
/-- C6 counterexample: the claim says the top-10 origins list is
computed only from records that pass the date-range filter AND the
optional location-set filter.  On the code this is false: the origin
query never applies the island filter.  Concretely, for a request
restricted to Oahu over a store holding a single Maui record, the
grouped time series is empty (no record passes the location filter) and
yet the Maui record's origin tops the origins list. -/
theorem c6_counterexample :
    (analyze_arrivals sampleReqOahu [sampleArrivalMaui]).time_series = []
      ∧ (analyze_arrivals sampleReqOahu [sampleArrivalMaui]).top_origins
          = [⟨"California", 7⟩] := by
  constructor
  · decide
  · decide

/-- C6 (amended): the top-10 origins list is computed from the records
that pass the date-range filter and have a non-null origin — the
location-set filter is NOT applied to it — and it lists at most 10
origins ordered by their total arrival count descending.  Each listed
origin carries the sum of arrival counts of every in-range record with
that origin, regardless of island. -/
theorem c6_top_origins_shape (req : AnalyticsRequest) (db : List ArrivalRow) :
    (analyze_arrivals req db).top_origins.length ≤ 10
      ∧ List.Sorted originRel (analyze_arrivals req db).top_origins
      ∧ ∀ e ∈ (analyze_arrivals req db).top_origins,
          e.arrivals = originTotal req db e.state := by
  refine ⟨?_, ?_, ?_⟩
  · exact List.length_take_le 10 _
  · exact (List.sorted_insertionSort originRel _).sublist (List.take_sublist _ _)
  · intro e he
    have h1 : e ∈ List.insertionSort originRel
        ((originKeys req db).map (fun s => ⟨s, originTotal req db s⟩)) :=
      (List.take_sublist _ _).mem he
    have h2 : e ∈ (originKeys req db).map
        (fun s => (⟨s, originTotal req db s⟩ : OriginRow)) :=
      (List.perm_insertionSort originRel _).subset h1
    obtain ⟨s, _, he2⟩ := List.mem_map.mp h2
    rw [← he2]

set_option maxRecDepth 1000000 in
/-- Witness for the amended C6 at concrete data: the California entry
sits in the top-origins list and carries the island-blind in-range
total. -/
theorem c6_top_origins_shape_witness :
    (⟨"California", 7⟩ : OriginRow)
        ∈ (analyze_arrivals sampleReqOahu [sampleArrivalMaui]).top_origins
      ∧ (7 : Int) = originTotal sampleReqOahu [sampleArrivalMaui] "California" :=
  ⟨by decide,
    (c6_top_origins_shape sampleReqOahu [sampleArrivalMaui]).2.2
      ⟨"California", 7⟩ (by decide)⟩

set_option maxRecDepth 1000000 in
/-- C7 counterexample: the claim says the overall average, peak and
minimum occupancy are computed under the same filtering as the
per-group series.  On the code this is false: the overall statistics
query never applies the island filter.  For a request restricted to
Oahu over a store holding a single Maui record with rate 90, the series
is empty and yet the overall peak is 90. -/
theorem c7_counterexample :
    (analyze_occupancy sampleReqOahu [sampleOccMaui]).time_series = []
      ∧ (analyze_occupancy sampleReqOahu [sampleOccMaui]).peak_occupancy = 90 := by
  constructor
  · decide
  · simp only [analyze_occupancy, occDateRows, roundedOrZero1, listMax, pyRound1,
      roundHalfEven, sampleReqOahu, sampleOccMaui, inDateRange, Date.key,
      List.filter, List.isEmpty, List.map]
    norm_num

/-- C7 (amended): the overall average, peak, minimum occupancy and
average ADR are computed from all records within the date range
regardless of the requested location set: they are invariant under any
change of the request's islands field (while the per-group series does
honour that filter, as the C7 counterexample shows). -/
theorem c7_overall_stats_ignore_islands (req : AnalyticsRequest)
    (db : List OccupancyRow) (isl2 : List String) :
    (analyze_occupancy req db).average_occupancy
        = (analyze_occupancy { req with islands := isl2 } db).average_occupancy
      ∧ (analyze_occupancy req db).peak_occupancy
        = (analyze_occupancy { req with islands := isl2 } db).peak_occupancy
      ∧ (analyze_occupancy req db).low_occupancy
        = (analyze_occupancy { req with islands := isl2 } db).low_occupancy
      ∧ (analyze_occupancy req db).average_adr
        = (analyze_occupancy { req with islands := isl2 } db).average_adr :=
  ⟨rfl, rfl, rfl, rfl⟩

/-! Helper lemmas about truncation and the forecast paths. -/

/-- Truncation toward zero is monotone. -/
theorem pytrunc_mono {a b : ℚ} (h : a ≤ b) : pytrunc a ≤ pytrunc b := by
  unfold pytrunc
  by_cases ha : a < 0
  · by_cases hb : b < 0
    · simp only [if_pos ha, if_pos hb]
      exact Int.ceil_le_ceil h
    · simp only [if_pos ha, if_neg hb]
      have h1 : ⌈a⌉ ≤ 0 := Int.ceil_le.mpr (by exact_mod_cast le_of_lt ha)
      have h2 : 0 ≤ ⌊b⌋ := Int.floor_nonneg.mpr (not_lt.mp hb)
      omega
  · have hb : ¬b < 0 := fun hb => ha (lt_of_le_of_lt h hb)
    simp only [if_neg ha, if_neg hb]
    exact Int.floor_mono h

/-- Truncation of a nonnegative rational is nonnegative. -/
theorem pytrunc_nonneg {q : ℚ} (h : 0 ≤ q) : 0 ≤ pytrunc q := by
  unfold pytrunc
  rw [if_neg (not_lt.mpr h)]
  exact Int.floor_nonneg.mpr h

/-- Truncation of an integer is the integer. -/
theorem pytrunc_intCast (n : ℤ) : pytrunc (n : ℚ) = n := by
  unfold pytrunc
  split
  · rw [Int.ceil_intCast]
  · rw [Int.floor_intCast]

/-- The seasonal multiplier is nonnegative. -/
theorem seasonal_factor_nonneg (m : Nat) : 0 ≤ seasonal_factor m := by
  unfold seasonal_factor
  split
  · norm_num
  · split <;> norm_num

/-- The weekend multiplier is nonnegative. -/
theorem weekend_factor_nonneg (wd : Nat) : 0 ≤ weekend_factor wd := by
  unfold weekend_factor
  split <;> norm_num

/-- Bounds of one baseline-heuristic day: with a nonnegative trailing
average and jitter draw, the day satisfies
0 ≤ lower ≤ predicted ≤ upper. -/
theorem baselineDay_bounds (avg : ℚ) (cal : Nat → Nat × Nat) (rand : Nat → ℚ)
    (island : String) (i : Nat) (havg : 0 ≤ avg) (hr : 0 ≤ rand i) :
    0 ≤ (baselineDay avg cal rand island i).confidence_lower
      ∧ (baselineDay avg cal rand island i).confidence_lower
          ≤ (baselineDay avg cal rand island i).predicted_arrivals
      ∧ (baselineDay avg cal rand island i).predicted_arrivals
          ≤ (baselineDay avg cal rand island i).confidence_upper := by
  have hjit : (0 : ℚ) ≤ 0.95 + 0.1 * rand i := by nlinarith
  have hbase : (0 : ℚ) ≤ avg * seasonal_factor (cal i).1
      * weekend_factor (cal i).2 * (0.95 + 0.1 * rand i) :=
    mul_nonneg (mul_nonneg (mul_nonneg havg (seasonal_factor_nonneg _))
      (weekend_factor_nonneg _)) hjit
  have hp : 0 ≤ baseline_day_prediction avg (cal i).1 (cal i).2 (rand i) :=
    pytrunc_nonneg hbase
  have hpq : (0 : ℚ) ≤ ((baseline_day_prediction avg (cal i).1 (cal i).2 (rand i) : ℤ) : ℚ) := by
    exact_mod_cast hp
  refine ⟨?_, ?_, ?_⟩
  · exact pytrunc_nonneg (by nlinarith)
  · calc pytrunc (((baseline_day_prediction avg (cal i).1 (cal i).2 (rand i) : ℤ) : ℚ) * 0.85)
        ≤ pytrunc ((baseline_day_prediction avg (cal i).1 (cal i).2 (rand i) : ℤ) : ℚ) :=
          pytrunc_mono (by nlinarith)
      _ = baseline_day_prediction avg (cal i).1 (cal i).2 (rand i) := pytrunc_intCast _
  · calc baseline_day_prediction avg (cal i).1 (cal i).2 (rand i)
        = pytrunc ((baseline_day_prediction avg (cal i).1 (cal i).2 (rand i) : ℤ) : ℚ) :=
          (pytrunc_intCast _).symm
      _ ≤ pytrunc (((baseline_day_prediction avg (cal i).1 (cal i).2 (rand i) : ℤ) : ℚ) * 1.15) :=
          pytrunc_mono (by nlinarith)

/-- Bounds of one clamped model-path day, given coherent model bounds. -/
theorem clampDay_bounds (island : String) (i : Nat) (t : ℚ × ℚ × ℚ)
    (h1 : t.2.1 ≤ t.1) (h2 : t.1 ≤ t.2.2) :
    0 ≤ (clampDay island i t).confidence_lower
      ∧ (clampDay island i t).confidence_lower ≤ (clampDay island i t).predicted_arrivals
      ∧ (clampDay island i t).predicted_arrivals ≤ (clampDay island i t).confidence_upper :=
  ⟨le_max_left 0 _, max_le_max le_rfl (pytrunc_mono h1), max_le_max le_rfl (pytrunc_mono h2)⟩

/-- An element read by iloc belongs to the frame. -/
theorem ilocQ_mem (l : List (ℚ × ℚ × ℚ)) (idx : Int) (t : ℚ × ℚ × ℚ)
    (h : ilocQ l idx = some t) : t ∈ l := by
  unfold ilocQ at h
  split at h
  · obtain ⟨hlt, he⟩ := List.getElem?_eq_some.mp h
    exact he ▸ List.getElem_mem hlt
  · split at h
    · obtain ⟨hlt, he⟩ := List.getElem?_eq_some.mp h
      exact he ▸ List.getElem_mem hlt
    · exact absurd h (by simp)

/-- A produced model-path day is a clamped model row or the padding
triple. -/
theorem modelPathDay_cases (out : List (ℚ × ℚ × ℚ)) (days : Nat) (island : String)
    (i : Nat) (d : ForecastDay) (h : modelPathDay out days island i = some d) :
    (∃ t ∈ out, d = clampDay island i t) ∨ d = ForecastDay.mk i 5000 4500 5500 island := by
  unfold modelPathDay at h
  split at h
  · cases hi : ilocQ out ((out.length : Int) - (days : Int) + (i : Int)) with
    | none => rw [hi] at h; exact absurd h (by simp)
    | some t =>
      rw [hi] at h
      exact Or.inl ⟨t, ilocQ_mem _ _ _ hi, (Option.some.inj h).symm⟩
  · exact Or.inr (Option.some.inj h).symm

/-- Every element of a traversed list comes from applying the function
to an index of the source list. -/
theorem optTraverse_mem (f : Nat → Option ForecastDay) :
    ∀ (l : List Nat) (res : List ForecastDay), optTraverse f l = some res →
      ∀ d ∈ res, ∃ a ∈ l, f a = some d := by
  intro l
  induction l with
  | nil =>
    intro res h d hd
    cases h
    exact absurd hd (List.not_mem_nil d)
  | cons a t ih =>
    intro res h d hd
    unfold optTraverse at h
    cases hfa : f a with
    | none => rw [hfa] at h; exact absurd h (by simp)
    | some b =>
      rw [hfa] at h
      cases hrest : optTraverse f t with
      | none => rw [hrest] at h; exact absurd h (by simp)
      | some r =>
        rw [hrest] at h
        simp only [Option.some.injEq] at h
        subst h
        rcases List.mem_cons.mp hd with h1 | h1
        · exact ⟨a, List.mem_cons_self a t, h1 ▸ hfa⟩
        · obtain ⟨x, hx, hfx⟩ := ih r hrest d h1
          exact ⟨x, List.mem_cons_of_mem a hx, hfx⟩

/-- A successful traversal preserves the length. -/
theorem optTraverse_length (f : Nat → Option ForecastDay) :
    ∀ (l : List Nat) (res : List ForecastDay), optTraverse f l = some res →
      res.length = l.length := by
  intro l
  induction l with
  | nil => intro res h; cases h; rfl
  | cons a t ih =>
    intro res h
    unfold optTraverse at h
    cases hfa : f a with
    | none => rw [hfa] at h; exact absurd h (by simp)
    | some b =>
      rw [hfa] at h
      cases hrest : optTraverse f t with
      | none => rw [hrest] at h; exact absurd h (by simp)
      | some r =>
        rw [hrest] at h
        simp only [Option.some.injEq] at h
        subst h
        simp [ih r hrest]

/-- The trailing average is nonnegative whenever all stored arrival
counts are. -/
theorem recentAvg_nonneg (db : AnalyticsDB) (island : String) (cutoffKey : Nat)
    (h : ∀ r ∈ db.arrivals, 0 ≤ r.arrival_count) :
    0 ≤ recentAvg db island cutoffKey := by
  unfold recentAvg
  split
  · norm_num
  · split
    · norm_num
    · unfold recentMean
      apply div_nonneg
      · have hs : (0 : ℤ) ≤ recentSum db island cutoffKey := by
          apply List.sum_nonneg
          intro x hx
          obtain ⟨r, hr, he⟩ := List.mem_map.mp hx
          have hmem : r ∈ db.arrivals := by
            unfold recentRows at hr
            exact (List.mem_filter.mp hr).1
          exact he ▸ h r hmem
        exact_mod_cast hs
      · exact_mod_cast Nat.zero_le _

/-- Bounds of every baseline-forecast day. -/
theorem baseline_forecast_bounds (db : AnalyticsDB) (island : String)
    (cal : Nat → Nat × Nat) (rand : Nat → ℚ) (cutoffKey days : Nat)
    (hdata : ∀ r ∈ db.arrivals, 0 ≤ r.arrival_count)
    (hrand : ∀ i, 0 ≤ rand i) :
    ∀ d ∈ generate_baseline_forecast db island cal rand cutoffKey days,
      0 ≤ d.confidence_lower ∧ d.confidence_lower ≤ d.predicted_arrivals
        ∧ d.predicted_arrivals ≤ d.confidence_upper := by
  intro d hd
  unfold generate_baseline_forecast at hd
  obtain ⟨i, _, he⟩ := List.mem_map.mp hd
  rw [← he]
  exact baselineDay_bounds _ cal rand island i
    (recentAvg_nonneg db island cutoffKey hdata) (hrand i)

/-- Equation lemma: generate_forecast without a model. -/
theorem generate_forecast_none_eq (db : AnalyticsDB) (island : String)
    (cal : Nat → Nat × Nat) (rand : Nat → ℚ) (cutoffKey days : Nat) :
    generate_forecast none db island cal rand cutoffKey days
      = (generate_baseline_forecast db island cal rand cutoffKey days, []) := rfl

/-- Equation lemma: generate_forecast with a model output. -/
theorem generate_forecast_some_eq (out : List (ℚ × ℚ × ℚ)) (db : AnalyticsDB)
    (island : String) (cal : Nat → Nat × Nat) (rand : Nat → ℚ)
    (cutoffKey days : Nat) :
    generate_forecast (some out) db island cal rand cutoffKey days
      = (match optTraverse (modelPathDay out days island) (List.range days) with
          | some l => (l, l.map (toForecastRec island))
          | none => (generate_baseline_forecast db island cal rand cutoffKey days, [])) := rfl

/-- The forecast list always has exactly the requested number of days,
on every path. -/
theorem generate_forecast_fst_length (modelOut : Option (List (ℚ × ℚ × ℚ)))
    (db : AnalyticsDB) (island : String) (cal : Nat → Nat × Nat)
    (rand : Nat → ℚ) (cutoffKey days : Nat) :
    (generate_forecast modelOut db island cal rand cutoffKey days).fst.length = days := by
  have hbase : (generate_baseline_forecast db island cal rand cutoffKey days).length = days := by
    unfold generate_baseline_forecast
    rw [List.length_map, List.length_range]
  cases modelOut with
  | none => exact hbase
  | some out =>
    unfold generate_forecast
    cases ht : optTraverse (modelPathDay out days island) (List.range days) with
    | some l =>
      simp only [ht]
      rw [optTraverse_length _ _ _ ht, List.length_range]
    | none =>
      simp only [ht]
      exact hbase

/-! Claims C3, C10, C4 and C8: the forecast engine. -/

/-- C3: for every location, horizon and day of the returned forecast,
the triple satisfies lower ≤ predicted ≤ upper and all three values are
nonnegative, on the trained-model path (clamping and padding included)
and on the baseline path alike.  The hypotheses are the contracts of
the collaborators and the data invariant: the statistical model emits
coherent confidence bounds, stored arrival counts are nonnegative, and
the jitter draws of np.random.random are nonnegative. -/
theorem c3_forecast_bounds (modelOut : Option (List (ℚ × ℚ × ℚ)))
    (db : AnalyticsDB) (island : String) (cal : Nat → Nat × Nat)
    (rand : Nat → ℚ) (cutoffKey days : Nat)
    (hmodel : ∀ out, modelOut = some out → ∀ t ∈ out, t.2.1 ≤ t.1 ∧ t.1 ≤ t.2.2)
    (hdata : ∀ r ∈ db.arrivals, 0 ≤ r.arrival_count)
    (hrand : ∀ i, 0 ≤ rand i) :
    ∀ d ∈ (generate_forecast modelOut db island cal rand cutoffKey days).fst,
      0 ≤ d.confidence_lower ∧ d.confidence_lower ≤ d.predicted_arrivals
        ∧ d.predicted_arrivals ≤ d.confidence_upper
        ∧ 0 ≤ d.predicted_arrivals ∧ 0 ≤ d.confidence_upper := by
  intro d hd
  have main : 0 ≤ d.confidence_lower ∧ d.confidence_lower ≤ d.predicted_arrivals
      ∧ d.predicted_arrivals ≤ d.confidence_upper := by
    cases modelOut with
    | none => exact baseline_forecast_bounds db island cal rand cutoffKey days hdata hrand d hd
    | some out =>
      rw [generate_forecast_some_eq] at hd
      cases ht : optTraverse (modelPathDay out days island) (List.range days) with
      | some l =>
        rw [ht] at hd
        have hdl : d ∈ l := hd
        obtain ⟨a, _, hfa⟩ := optTraverse_mem _ _ _ ht d hdl
        rcases modelPathDay_cases out days island a d hfa with ⟨t, htm, he⟩ | he
        · rw [he]
          have hb := hmodel out rfl t htm
          exact clampDay_bounds island a t hb.1 hb.2
        · rw [he]
          refine ⟨by norm_num, by norm_num, by norm_num⟩
      | none =>
        rw [ht] at hd
        exact baseline_forecast_bounds db island cal rand cutoffKey days hdata hrand d hd
  have hpred : 0 ≤ d.predicted_arrivals := le_trans main.1 main.2.1
  exact ⟨main.1, main.2.1, main.2.2, hpred, le_trans hpred main.2.2⟩

/-- Witness for C3 at concrete data: a one-day model-path forecast from
the sample model output (10.5, 9.5, 12.5), clamped to (10, 9, 12). -/
theorem c3_forecast_bounds_witness :
    0 ≤ (ForecastDay.mk 0 10 9 12 "Oahu").confidence_lower
      ∧ (ForecastDay.mk 0 10 9 12 "Oahu").confidence_lower
          ≤ (ForecastDay.mk 0 10 9 12 "Oahu").predicted_arrivals
      ∧ (ForecastDay.mk 0 10 9 12 "Oahu").predicted_arrivals
          ≤ (ForecastDay.mk 0 10 9 12 "Oahu").confidence_upper
      ∧ 0 ≤ (ForecastDay.mk 0 10 9 12 "Oahu").predicted_arrivals
      ∧ 0 ≤ (ForecastDay.mk 0 10 9 12 "Oahu").confidence_upper := by
  have hlist : (generate_forecast (some sampleModelOut) emptyDb "Oahu"
      sampleCal sampleRand 0 1).fst = [ForecastDay.mk 0 10 9 12 "Oahu"] := by
    simp [generate_forecast, optTraverse, modelPathDay, ilocQ, clampDay, pytrunc,
      sampleModelOut]
    norm_num [Int.floor_eq_iff]
  refine c3_forecast_bounds (some sampleModelOut) emptyDb "Oahu" sampleCal sampleRand 0 1
    ?_ ?_ ?_ (ForecastDay.mk 0 10 9 12 "Oahu") ?_
  · intro out hout t ht
    cases hout
    have : t = ((10.5 : ℚ), (9.5 : ℚ), (12.5 : ℚ)) := by
      simpa [sampleModelOut] using ht
    rw [this]
    norm_num
  · intro r hr
    exact absurd hr (List.not_mem_nil r)
  · intro i
    norm_num [sampleRand]
  · rw [hlist]
    exact List.mem_singleton.mpr rfl

/-- C10: for every location and horizon, generate_forecast returns a
sequence of exactly horizon_days daily entries on both paths; for a
positive horizon the sequence is non-empty, and consequently
calculate_business_impact (which runs a 30-day forecast) never takes
its error branch and the average-arrivals computation inside
generate_recommendations divides by the non-zero forecast length. -/
theorem c10_forecast_length_and_impact (modelOut : Option (List (ℚ × ℚ × ℚ)))
    (db : AnalyticsDB) (island : String) (cal : Nat → Nat × Nat)
    (rand : Nat → ℚ) (cutoffKey days : Nat) (business_type : String)
    (h : 1 ≤ days) :
    (generate_forecast modelOut db island cal rand cutoffKey days).fst.length = days
      ∧ (generate_forecast modelOut db island cal rand cutoffKey days).fst ≠ []
      ∧ calculate_business_impact modelOut db island cal rand cutoffKey business_type
          ≠ BusinessImpact.err := by
  have hlen := generate_forecast_fst_length modelOut db island cal rand cutoffKey days
  refine ⟨hlen, ?_, ?_⟩
  · intro hnil
    rw [hnil] at hlen
    simp at hlen
    omega
  · have h30 := generate_forecast_fst_length modelOut db island cal rand cutoffKey 30
    unfold calculate_business_impact
    cases he : (generate_forecast modelOut db island cal rand cutoffKey 30).fst.isEmpty with
    | false => simp [he]
    | true =>
      rw [List.isEmpty_iff] at he
      rw [he] at h30
      simp at h30

/-- Witness for C10 at concrete data: a one-day baseline forecast. -/
theorem c10_forecast_length_and_impact_witness :
    (generate_forecast none emptyDb "Oahu" sampleCal sampleRand 0 1).fst.length = 1
      ∧ (generate_forecast none emptyDb "Oahu" sampleCal sampleRand 0 1).fst ≠ []
      ∧ calculate_business_impact none emptyDb "Oahu" sampleCal sampleRand 0 "hotel"
          ≠ BusinessImpact.err :=
  c10_forecast_length_and_impact none emptyDb "Oahu" sampleCal sampleRand 0 1 "hotel"
    (by decide)

/-- C4 counterexample: the claim says every generated daily prediction
is persisted as a ForecastRecord regardless of the path.  On the code
this is false: the baseline path persists nothing.  Concretely, a
three-day baseline forecast returns three daily predictions and adds
zero rows to the forecast table. -/
theorem c4_counterexample :
    (generate_forecast none emptyDb "Oahu" sampleCal sampleRand 0 3).snd = []
      ∧ (generate_forecast none emptyDb "Oahu" sampleCal sampleRand 0 3).fst.length = 3 :=
  ⟨rfl, generate_forecast_fst_length none emptyDb "Oahu" sampleCal sampleRand 0 3⟩

/-- C4 (amended): on the trained-model path every daily prediction of
the returned sequence is persisted as a ForecastRecord row — the rows
added are exactly the per-day records of the returned days, in order,
one row per requested day; on the baseline path — whether entered
directly because no model is available or as the fallback of a failed
model-path read — no prediction is persisted at all.  The three
conjuncts cover the three execution paths of generate_forecast
exhaustively. -/
theorem c4_persistence_by_path (modelOut : Option (List (ℚ × ℚ × ℚ)))
    (db : AnalyticsDB) (island : String) (cal : Nat → Nat × Nat)
    (rand : Nat → ℚ) (cutoffKey days : Nat) :
    (∀ out l, modelOut = some out →
        optTraverse (modelPathDay out days island) (List.range days) = some l →
          (generate_forecast modelOut db island cal rand cutoffKey days).snd
              = ((generate_forecast modelOut db island cal rand cutoffKey days).fst).map
                  (toForecastRec island)
            ∧ (generate_forecast modelOut db island cal rand cutoffKey days).snd.length
                = days)
      ∧ (modelOut = none →
          (generate_forecast modelOut db island cal rand cutoffKey days).snd = [])
      ∧ (∀ out, modelOut = some out →
          optTraverse (modelPathDay out days island) (List.range days) = none →
            (generate_forecast modelOut db island cal rand cutoffKey days).snd = []) := by
  refine ⟨?_, ?_, ?_⟩
  · intro out l ho ht
    subst ho
    rw [generate_forecast_some_eq, ht]
    constructor
    · rfl
    · show (l.map (toForecastRec island)).length = days
      rw [List.length_map, optTraverse_length _ _ _ ht, List.length_range]
  · intro h
    subst h
    rfl
  · intro out ho ht
    subst ho
    rw [generate_forecast_some_eq, ht]

/-- Witness for the amended C4 at concrete data: the one-day model-path
forecast from sampleModelOut persists exactly its one day as a record,
and the baseline path adds no forecast rows. -/
theorem c4_persistence_by_path_witness :
    (generate_forecast (some sampleModelOut) emptyDb "Oahu" sampleCal sampleRand 0 1).snd
        = ((generate_forecast (some sampleModelOut) emptyDb "Oahu" sampleCal
              sampleRand 0 1).fst).map (toForecastRec "Oahu")
      ∧ (generate_forecast (some sampleModelOut) emptyDb "Oahu" sampleCal
          sampleRand 0 1).snd.length = 1
      ∧ (generate_forecast none emptyDb "Oahu" sampleCal sampleRand 0 3).snd = [] := by
  have ht : optTraverse (modelPathDay sampleModelOut 1 "Oahu") (List.range 1)
      = some [ForecastDay.mk 0 10 9 12 "Oahu"] := by
    simp [optTraverse, modelPathDay, ilocQ, clampDay, pytrunc, sampleModelOut]
    norm_num [Int.floor_eq_iff]
  have h1 := (c4_persistence_by_path (some sampleModelOut) emptyDb "Oahu" sampleCal
      sampleRand 0 1).1 sampleModelOut [ForecastDay.mk 0 10 9 12 "Oahu"] rfl ht
  have h2 := (c4_persistence_by_path none emptyDb "Oahu" sampleCal sampleRand 0 3).2.1 rfl
  exact ⟨h1.1, h1.2, h2⟩

/-- C8: in the baseline heuristic, holding the trailing average, the
weekend factor and the jitter constant, the prediction for a day in
December, January or February is at least the prediction for a day in
June, July or August for the same location, because the seasonal
multipliers satisfy 1.2 > 1.1; hence peak-season predictions average at
least shoulder-season predictions.  The trailing average and the jitter
draw are nonnegative, as in the system (counts are nonnegative and
np.random.random draws from [0, 1)). -/
theorem c8_peak_season_ge_shoulder (avg jitter : ℚ) (m1 m2 wd : Nat)
    (havg : 0 ≤ avg) (hjit : 0 ≤ jitter)
    (h1 : m1 = 12 ∨ m1 = 1 ∨ m1 = 2) (h2 : m2 = 6 ∨ m2 = 7 ∨ m2 = 8) :
    baseline_day_prediction avg m2 wd jitter ≤ baseline_day_prediction avg m1 wd jitter := by
  have hs1 : seasonal_factor m1 = 1.2 := by
    rcases h1 with h | h | h <;> subst h <;> norm_num [seasonal_factor]
  have hs2 : seasonal_factor m2 = 1.1 := by
    rcases h2 with h | h | h <;> subst h <;> norm_num [seasonal_factor]
  unfold baseline_day_prediction
  rw [hs1, hs2]
  apply pytrunc_mono
  have hw := weekend_factor_nonneg wd
  have hjf : (0 : ℚ) ≤ 0.95 + 0.1 * jitter := by nlinarith
  have hk : 0 ≤ avg * weekend_factor wd * (0.95 + 0.1 * jitter) :=
    mul_nonneg (mul_nonneg havg hw) hjf
  nlinarith [hk]

/-- Witness for C8 at concrete data: December beats June with the
trailing average 5000, a weekday, and jitter one half. -/
theorem c8_peak_season_ge_shoulder_witness :
    baseline_day_prediction 5000 6 0 (1/2) ≤ baseline_day_prediction 5000 12 0 (1/2) :=
  c8_peak_season_ge_shoulder 5000 (1/2) 12 6 0 (by norm_num) (by norm_num)
    (Or.inl rfl) (Or.inl rfl)

/-! Claim C5: order independence of the cache fingerprint. -/

/-- Characters with equal code points are equal. -/
theorem char_eq_of_toNat_eq {a b : Char} (h : a.toNat = b.toNat) : a = b := by
  apply Char.eq_of_val_eq
  apply UInt32.eq_of_toBitVec_eq
  apply BitVec.eq_of_toNat_eq
  exact h

/-- Strings with equal character lists are equal. -/
theorem string_eq_of_toList_eq {a b : String} (h : a.toList = b.toList) : a = b := by
  cases a
  cases b
  simp only [String.toList] at h
  exact congrArg String.mk h

/-- The lexicographic comparison is total. -/
theorem lexLe_total : ∀ cs ds : List Char, lexLe cs ds = true ∨ lexLe ds cs = true := by
  intro cs
  induction cs with
  | nil => intro ds; exact Or.inl rfl
  | cons c ct ih =>
    intro ds
    cases ds with
    | nil => exact Or.inr rfl
    | cons d dt =>
      by_cases h1 : c.toNat < d.toNat
      · exact Or.inl (by simp [lexLe, h1])
      · by_cases h2 : d.toNat < c.toNat
        · exact Or.inr (by simp [lexLe, h2])
        · rcases ih dt with h | h
          · exact Or.inl (by simp [lexLe, h1, h2, h])
          · exact Or.inr (by simp [lexLe, h1, h2, h])

/-- The lexicographic comparison is transitive. -/
theorem lexLe_trans : ∀ as bs cs : List Char,
    lexLe as bs = true → lexLe bs cs = true → lexLe as cs = true := by
  intro as
  induction as with
  | nil => intro bs cs _ _; rfl
  | cons a at2 ih =>
    intro bs cs h1 h2
    cases bs with
    | nil => simp [lexLe] at h1
    | cons b bt =>
      cases cs with
      | nil => simp [lexLe] at h2
      | cons c ct =>
        by_cases hab : a.toNat < b.toNat
        · by_cases hbc : b.toNat < c.toNat
          · simp [lexLe, show a.toNat < c.toNat from lt_trans hab hbc]
          · by_cases hcb : c.toNat < b.toNat
            · simp [lexLe, hbc, hcb] at h2
            · simp [lexLe, show a.toNat < c.toNat by omega]
        · by_cases hba : b.toNat < a.toNat
          · simp [lexLe, hab, hba] at h1
          · by_cases hbc : b.toNat < c.toNat
            · simp [lexLe, show a.toNat < c.toNat by omega]
            · by_cases hcb : c.toNat < b.toNat
              · simp [lexLe, hbc, hcb] at h2
              · simp only [lexLe, if_neg hab, if_neg hba] at h1
                simp only [lexLe, if_neg hbc, if_neg hcb] at h2
                simp only [lexLe, if_neg (show ¬a.toNat < c.toNat by omega),
                  if_neg (show ¬c.toNat < a.toNat by omega)]
                exact ih bt ct h1 h2

/-- The lexicographic comparison is antisymmetric. -/
theorem lexLe_antisymm : ∀ cs ds : List Char,
    lexLe cs ds = true → lexLe ds cs = true → cs = ds := by
  intro cs
  induction cs with
  | nil =>
    intro ds h1 h2
    cases ds with
    | nil => rfl
    | cons d dt => simp [lexLe] at h2
  | cons c ct ih =>
    intro ds h1 h2
    cases ds with
    | nil => simp [lexLe] at h1
    | cons d dt =>
      by_cases hcd : c.toNat < d.toNat
      · simp [lexLe, hcd, show ¬d.toNat < c.toNat by omega] at h2
      · by_cases hdc : d.toNat < c.toNat
        · simp [lexLe, hcd, hdc] at h1
        · have hch : c = d := char_eq_of_toNat_eq (by omega)
          simp only [lexLe, if_neg hcd, if_neg hdc] at h1
          simp only [lexLe, if_neg hdc, if_neg hcd] at h2
          rw [hch, ih dt h1 h2]

/-- Totality of the string key comparison. -/
theorem strLe_total (a b : String) : strLe a b = true ∨ strLe b a = true :=
  lexLe_total a.toList b.toList

/-- Transitivity of the string key comparison. -/
theorem strLe_trans {a b c : String} (h1 : strLe a b = true) (h2 : strLe b c = true) :
    strLe a c = true :=
  lexLe_trans a.toList b.toList c.toList h1 h2

/-- Antisymmetry of the string key comparison. -/
theorem strLe_antisymm {a b : String} (h1 : strLe a b = true) (h2 : strLe b a = true) :
    a = b :=
  string_eq_of_toList_eq (lexLe_antisymm a.toList b.toList h1 h2)

/-- Insertion permutes. -/
theorem insertField_perm (p : String × String) :
    ∀ l, List.Perm (insertField p l) (p :: l) := by
  intro l
  induction l with
  | nil => exact List.Perm.refl _
  | cons q t ih =>
    unfold insertField
    by_cases h : strLe p.1 q.1
    · simp only [if_pos h]
      exact List.Perm.refl _
    · simp only [if_neg h]
      exact (ih.cons q).trans (List.Perm.swap p q t)

/-- Sorting permutes. -/
theorem sortFields_perm : ∀ l, List.Perm (sortFields l) l := by
  intro l
  induction l with
  | nil => exact List.Perm.refl _
  | cons p t ih =>
    unfold sortFields
    exact (insertField_perm p (sortFields t)).trans (ih.cons p)

/-- Insertion preserves key-sortedness. -/
theorem insertField_pairwise (p : String × String) :
    ∀ l, List.Pairwise (fun a b => strLe a.1 b.1 = true) l →
      List.Pairwise (fun a b => strLe a.1 b.1 = true) (insertField p l) := by
  intro l
  induction l with
  | nil => intro _; simp [insertField]
  | cons q t ih =>
    intro hl
    rw [List.pairwise_cons] at hl
    unfold insertField
    by_cases h : strLe p.1 q.1
    · simp only [if_pos h]
      rw [List.pairwise_cons]
      refine ⟨?_, List.pairwise_cons.mpr hl⟩
      intro x hx
      rcases List.mem_cons.mp hx with he | hxt
      · rw [he]; exact h
      · exact strLe_trans h (hl.1 x hxt)
    · simp only [if_neg h]
      rw [List.pairwise_cons]
      refine ⟨?_, ih hl.2⟩
      intro x hx
      rcases List.mem_cons.mp ((insertField_perm p t).subset hx) with he | hxt
      · rw [he]
        rcases strLe_total p.1 q.1 with hpq | hqp
        · exact absurd hpq h
        · exact hqp
      · exact hl.1 x hxt

/-- The sort output is key-sorted. -/
theorem sortFields_pairwise :
    ∀ l, List.Pairwise (fun a b => strLe a.1 b.1 = true) (sortFields l) := by
  intro l
  induction l with
  | nil => simp [sortFields]
  | cons p t ih =>
    unfold sortFields
    exact insertField_pairwise p (sortFields t) ih

/-- Two key-sorted permutations of each other with duplicate-free keys
are equal. -/
theorem sorted_nodup_keys_unique (l1 l2 : List (String × String))
    (hp : List.Perm l1 l2)
    (hs1 : List.Pairwise (fun a b => strLe a.1 b.1 = true) l1)
    (hs2 : List.Pairwise (fun a b => strLe a.1 b.1 = true) l2)
    (hnd : (l1.map Prod.fst).Nodup) : l1 = l2 := by
  haveI : IsAntisymm (String × String)
      (fun a b => strLe a.1 b.1 = true ∧ a.1 ≠ b.1) :=
    ⟨fun a b h1 h2 => absurd (strLe_antisymm h1.1 h2.1) h1.2⟩
  have hnd2 : (l2.map Prod.fst).Nodup := ((hp.map Prod.fst).nodup_iff).mp hnd
  have hne1 : List.Pairwise (fun a b : String × String => a.1 ≠ b.1) l1 :=
    List.pairwise_map.mp hnd
  have hne2 : List.Pairwise (fun a b : String × String => a.1 ≠ b.1) l2 :=
    List.pairwise_map.mp hnd2
  exact List.eq_of_perm_of_sorted hp (hs1.and hne1) (hs2.and hne2)

/-- Sorting is invariant under permutation of a duplicate-free-keyed
dictionary. -/
theorem sortFields_eq_of_perm (l1 l2 : List (String × String))
    (hp : List.Perm l1 l2) (hnd : (l1.map Prod.fst).Nodup) :
    sortFields l1 = sortFields l2 :=
  sorted_nodup_keys_unique (sortFields l1) (sortFields l2)
    ((sortFields_perm l1).trans (hp.trans (sortFields_perm l2).symm))
    (sortFields_pairwise l1) (sortFields_pairwise l2)
    (((sortFields_perm l1).map Prod.fst).nodup_iff.mpr hnd)

/-- C5: the cache fingerprint is a function of the request's field
values only: whatever order the five request fields are presented in,
the sorted-key serialization and hence the hash are the same, so two
requests with identical fields always produce the same fingerprint. -/
theorem c5_fingerprint_order_independent (r : AnalyticsRequest)
    (l : List (String × String)) (hperm : List.Perm l (reqFields r)) :
    toString (md5model (jsonDumpsSorted l)) = generate_cache_key r := by
  have hkeys : (reqFields r).map Prod.fst
      = ["start_date", "end_date", "islands", "metrics", "group_by"] := rfl
  have hnd : (l.map Prod.fst).Nodup := by
    have h2 : ((reqFields r).map Prod.fst).Nodup := by
      rw [hkeys]
      decide
    exact ((hperm.map Prod.fst).nodup_iff).mpr h2
  have hs : sortFields l = sortFields (reqFields r) :=
    sortFields_eq_of_perm l (reqFields r) hperm hnd
  unfold generate_cache_key jsonDumpsSorted
  rw [hs]

/-- Witness for C5 at concrete data: presenting the fields of sampleReq
in reverse order yields the same fingerprint. -/
theorem c5_fingerprint_order_independent_witness :
    List.Perm ((reqFields sampleReq).reverse) (reqFields sampleReq)
      ∧ toString (md5model (jsonDumpsSorted ((reqFields sampleReq).reverse)))
          = generate_cache_key sampleReq :=
  ⟨List.reverse_perm _,
    c5_fingerprint_order_independent sampleReq ((reqFields sampleReq).reverse)
      (List.reverse_perm _)⟩
